import Mathlib

/-!
# Verification of the RLHF data-quality core

A shallow embedding of the signal-detection and persistence core of the
`rlhf-data-quality` repository, together with theorems settling the frozen
claims about it.

Modelling conventions:
* Python floats (severities, thresholds, ratios) are modelled as exact
  rationals `ℚ`; the decimal literals of the source become the corresponding
  rationals.
* Python strings are Lean `String`s; `str.lower()` is modelled by mapping
  `Char.toLower` over the characters (ASCII case folding, which covers every
  string appearing in the source's fixed lexicons and the claims).
* The SQLite database is modelled as an explicit state record; each mutating
  operation is a function from state to (result, state), where the returned
  state equals the input state whenever the operation fails (the connection
  context manager commits on success and rolls back on any exception).
* Timestamps (`created_at`, `detected_at`) are wall-clock collaborator data
  and are omitted from the state.
-/

/-! ## Data model: `PreferenceRow` (src/src/models.py) -/

/-- One labelled preference pair, as in the `PreferenceRow` dataclass of
`src/src/models.py` (field order: prompt, chosen, rejected, row_id). -/
structure PreferenceRow where
  prompt : String
  chosen : String
  rejected : String
  row_id : String
deriving DecidableEq, Repr

/-- Construction of a `PreferenceRow`, including the `__post_init__`
validation of `src/src/models.py`: `row_id` is checked first, then `prompt`,
then `chosen`, then `rejected`; an empty field raises `ValueError` with the
message shown. -/
def PreferenceRow.mk? (prompt chosen rejected row_id : String) :
    Except String PreferenceRow :=
  if row_id = "" then
    .error "Row_id is empty"
  else if prompt = "" then
    .error ("Prompt is missing for row: " ++ row_id)
  else if chosen = "" then
    .error ("Chosen is missing for row: " ++ row_id)
  else if rejected = "" then
    .error ("Rejected is missing for row: " ++ row_id)
  else
    .ok ⟨prompt, chosen, rejected, row_id⟩

/-! ## Severity classifier (src/detectors/base.py, `get_severity_level`) -/

/-- `BaseDetector.get_severity_level` from `src/detectors/base.py`: rejects
inputs outside `[0, 1]` with a `ValueError`, otherwise buckets the severity
into one of the four ordinal labels. -/
def get_severity_level (severity : ℚ) : Except String String :=
  if ¬ (0 ≤ severity ∧ severity ≤ 1) then
    .error "Severity must be between 0.0 and 1.0"
  else if 9/10 ≤ severity then .ok "critical"
  else if 7/10 ≤ severity then .ok "high"
  else if 1/2 ≤ severity then .ok "medium"
  else .ok "low"

/-- C3: For severities inside `[0, 1]` the classifier is total and returns
exactly the bucket dictated by the claim's boundaries, and every input
outside `[0, 1]` produces an error rather than a clamped bucket. -/
theorem get_severity_level_buckets (s : ℚ) :
    (0 ≤ s ∧ s ≤ 1 →
      (get_severity_level s = .ok "critical" ↔ 9/10 ≤ s) ∧
      (get_severity_level s = .ok "high" ↔ 7/10 ≤ s ∧ s < 9/10) ∧
      (get_severity_level s = .ok "medium" ↔ 1/2 ≤ s ∧ s < 7/10) ∧
      (get_severity_level s = .ok "low" ↔ s < 1/2)) ∧
    (¬ (0 ≤ s ∧ s ≤ 1) →
      get_severity_level s = .error "Severity must be between 0.0 and 1.0") := by
  constructor
  · intro hin
    unfold get_severity_level
    rw [if_neg (by simpa using hin)]
    split_ifs with h1 h2 h3
    · exact ⟨by simp [h1], by simp; intro _; linarith,
        by simp; intro _; linarith, by simp; linarith⟩
    · exact ⟨by simp [h1], by simp [h2, lt_of_not_le h1],
        by simp; intro _; linarith, by simp; linarith⟩
    · exact ⟨by simp [h1], by simp [h2],
        by simp [lt_of_not_le h2]; linarith, by simp; linarith⟩
    · exact ⟨by simp [h1], by simp [h2],
        by simp; intro _; linarith [lt_of_not_le h3],
        by simp; linarith [lt_of_not_le h3]⟩
  · intro hout
    unfold get_severity_level
    rw [if_pos (by simpa using hout)]

/-- Witness for C3 at the claim's sample points: the boundary values of the
claim land in the stated buckets, and an out-of-range input errors. -/
theorem get_severity_level_buckets_witness :
    get_severity_level (9/10) = .ok "critical" ∧
    get_severity_level (899999/1000000) = .ok "high" ∧
    get_severity_level (7/10) = .ok "high" ∧
    get_severity_level (69999/100000) = .ok "medium" ∧
    get_severity_level (1/2) = .ok "medium" ∧
    get_severity_level (49999/100000) = .ok "low" ∧
    get_severity_level 2 = .error "Severity must be between 0.0 and 1.0" := by
  refine ⟨?_, ?_, ?_, ?_, ?_, ?_, ?_⟩
  · exact ((get_severity_level_buckets (9/10)).1 (by norm_num)).1.mpr (by norm_num)
  · exact ((get_severity_level_buckets (899999/1000000)).1
      (by norm_num)).2.1.mpr (by norm_num)
  · exact ((get_severity_level_buckets (7/10)).1 (by norm_num)).2.1.mpr (by norm_num)
  · exact ((get_severity_level_buckets (69999/100000)).1
      (by norm_num)).2.2.1.mpr (by norm_num)
  · exact ((get_severity_level_buckets (1/2)).1 (by norm_num)).2.2.1.mpr (by norm_num)
  · exact ((get_severity_level_buckets (49999/100000)).1
      (by norm_num)).2.2.2.mpr (by norm_num)
  · exact (get_severity_level_buckets 2).2 (by norm_num)

/-- C9: `PreferenceRow` construction fails exactly when one of the four
fields is empty, and on success the record holds exactly the supplied
arguments. -/
theorem preferenceRow_mk_characterization (p c r id : String) :
    ((∃ e, PreferenceRow.mk? p c r id = .error e) ↔
      (p = "" ∨ c = "" ∨ r = "" ∨ id = "")) ∧
    (p ≠ "" → c ≠ "" → r ≠ "" → id ≠ "" →
      PreferenceRow.mk? p c r id = .ok ⟨p, c, r, id⟩) := by
  constructor
  · unfold PreferenceRow.mk?
    split_ifs <;> simp_all
  · intro hp hc hr hid
    unfold PreferenceRow.mk?
    rw [if_neg hid, if_neg hp, if_neg hc, if_neg hr]

/-- Witness for C9: a fully populated row constructs successfully with its
fields preserved, by the characterization theorem at concrete input. -/
theorem preferenceRow_mk_characterization_witness :
    PreferenceRow.mk? "why?" "because" "no" "r1" =
      .ok ⟨"why?", "because", "no", "r1"⟩ :=
  (preferenceRow_mk_characterization "why?" "because" "no" "r1").2
    (by decide) (by decide) (by decide) (by decide)

/-! ## Detection store (src/database.py) -/

/-- A row of the `response_pairs` table (src/database.py SCHEMA_SQL). -/
structure ResponsePair where
  pair_id : String
  chosen : String
  rejected : String
  source_dataset : String
deriving DecidableEq, Repr

/-- A row of the `detections` table (src/database.py SCHEMA_SQL); the
`detected_at` timestamp is wall-clock collaborator data and is omitted. -/
structure DetectionRow where
  detection_id : Nat
  pair_id : String
  signal_type : String
  severity : ℚ
  metadata : Option String
deriving DecidableEq, Repr

/-- The persisted SQLite state.  `tablesCreated` records whether the
`CREATE TABLE IF NOT EXISTS` statements of `SCHEMA_SQL` have run; the three
lists are the logical contents of the three tables. -/
structure DBState where
  tablesCreated : Bool
  response_pairs : List ResponsePair
  detections : List DetectionRow
  schema_version : List Nat
deriving DecidableEq, Repr

/-- Errors surfaced by the store operations: `valueError` is Python's
`ValueError` raised by the severity range check, `integrityError` is
`sqlite3.IntegrityError` raised on a foreign-key violation. -/
inductive DBError where
  | valueError
  | integrityError
deriving DecidableEq, Repr

/-- `CURRENT_SCHEMA_VERSION` from src/database.py. -/
def CURRENT_SCHEMA_VERSION : Nat := 1

/-- `init_db` from src/database.py: runs `SCHEMA_SQL` (create tables and
indexes if absent, leaving existing contents untouched), then inserts the
current schema-version row only when no row with that version exists. -/
def init_db (db : DBState) : DBState :=
  let db' := { db with tablesCreated := true }
  if CURRENT_SCHEMA_VERSION ∈ db'.schema_version then db'
  else { db' with schema_version := db'.schema_version ++ [CURRENT_SCHEMA_VERSION] }

/-- The next `detections.detection_id`: SQLite `AUTOINCREMENT` assigns a row
id strictly greater than any id ever used; over the states reachable here
that is one more than the largest id present. -/
def nextDetectionId (dets : List DetectionRow) : Nat :=
  (dets.map DetectionRow.detection_id).foldr max 0 + 1

/-- Model of Python's `json.dumps` on a string-valued dict, used only to
serialize detection metadata; the claims depend on when it is applied, not
on its exact text. -/
def jsonDumps (kvs : List (String × String)) : String :=
  "\x7b" ++ String.intercalate ", "
    (kvs.map (fun kv => "\"" ++ kv.1 ++ "\": \"" ++ kv.2 ++ "\"")) ++ "\x7d"

/-- The metadata serialization step of `insert_detection`
(src/database.py line 257): `json.dumps(metadata) if metadata else None`.
Both `None` and the empty dict are falsy in Python, so both yield `NULL`. -/
def metadataJson : Option (List (String × String)) → Option String
  | none => none
  | some kvs => if kvs.isEmpty then none else some (jsonDumps kvs)

/-- `insert_detection` from src/database.py: the severity range check runs
before any connection is opened; inside the transaction the `INSERT` enforces
the foreign key on `pair_id` (`PRAGMA foreign_keys = ON`), and on any failure
the context manager rolls the transaction back, so the returned state equals
the input state on every error path.  On success the new row is appended and
`cursor.lastrowid` is returned.  The model assumes the schema exists (the
store is initialized before use). -/
def insert_detection (db : DBState) (pair_id signal_type : String)
    (severity : ℚ) (metadata : Option (List (String × String))) :
    Except DBError Nat × DBState :=
  if ¬ (0 ≤ severity ∧ severity ≤ 1) then
    (.error .valueError, db)
  else
    let metadata_json := metadataJson metadata
    if db.response_pairs.any (fun rp => rp.pair_id == pair_id) then
      let did := nextDetectionId db.detections
      (.ok did,
        { db with detections :=
            db.detections ++ [⟨did, pair_id, signal_type, severity, metadata_json⟩] })
    else
      (.error .integrityError, db)

/-- An initialized store with no response pairs, used as concrete input. -/
def dbEmpty : DBState := ⟨true, [], [], [CURRENT_SCHEMA_VERSION]⟩

/-- An initialized store holding a single response pair `p1`. -/
def dbOnePair : DBState :=
  ⟨true, [⟨"p1", "yes", "no", "hh-rlhf"⟩], [], [CURRENT_SCHEMA_VERSION]⟩

/-- Counterexample to C1 as stated: a call with an unknown `pair_id` and an
out-of-range severity fails with `ValueError` (the range check runs first),
not with a referential integrity error. -/
theorem insert_detection_unknown_pair_not_always_integrity :
    insert_detection dbEmpty "ghost" "repetition" 2 none =
      (.error .valueError, dbEmpty) ∧
    dbEmpty.response_pairs = [] := by
  constructor
  · unfold insert_detection
    rw [if_pos (by norm_num)]
  · rfl

/-- C1 (amended): a call with an unknown `pair_id` whose severity passes the
range check always fails with a referential integrity error, and the
returned state is exactly the input state — nothing is written. -/
theorem insert_detection_unknown_pair_integrity (db : DBState)
    (pid st : String) (sev : ℚ) (md : Option (List (String × String)))
    (hfk : ∀ rp ∈ db.response_pairs, rp.pair_id ≠ pid)
    (h0 : 0 ≤ sev) (h1 : sev ≤ 1) :
    insert_detection db pid st sev md = (.error .integrityError, db) := by
  have hany : db.response_pairs.any (fun rp => rp.pair_id == pid) = false := by
    simp only [List.any_eq_false]
    intro rp hrp
    simpa using hfk rp hrp
  unfold insert_detection
  rw [if_neg (not_not_intro ⟨h0, h1⟩)]
  simp [hany]

/-- Witness for the amended C1 at a concrete initialized store. -/
theorem insert_detection_unknown_pair_integrity_witness :
    insert_detection dbEmpty "hh-1" "length_ratio" 1 none =
      (.error .integrityError, dbEmpty) :=
  insert_detection_unknown_pair_integrity dbEmpty "hh-1" "length_ratio" 1 none
    (by simp [dbEmpty]) (by norm_num) (by norm_num)

/-- C2: a severity outside `[0, 1]` raises `ValueError` with the state
untouched (the check precedes the connection), a severity inside `[0, 1]`
never raises `ValueError`, and the insert preserves the invariant that every
persisted detection has severity in `[0, 1]`. -/
theorem insert_detection_severity_range (db : DBState) (pid st : String)
    (sev : ℚ) (md : Option (List (String × String))) :
    (¬ (0 ≤ sev ∧ sev ≤ 1) →
      insert_detection db pid st sev md = (.error .valueError, db)) ∧
    (0 ≤ sev ∧ sev ≤ 1 →
      (insert_detection db pid st sev md).1 ≠ .error .valueError) ∧
    ((∀ d ∈ db.detections, 0 ≤ d.severity ∧ d.severity ≤ 1) →
      ∀ d ∈ (insert_detection db pid st sev md).2.detections,
        0 ≤ d.severity ∧ d.severity ≤ 1) := by
  by_cases hr : 0 ≤ sev ∧ sev ≤ 1
  · by_cases hfk : db.response_pairs.any (fun rp => rp.pair_id == pid) = true
    · refine ⟨fun h => absurd hr h, fun _ => ?_, fun hinv d hd => ?_⟩
      · simp [insert_detection, not_not_intro hr, hfk]
      · rw [show (insert_detection db pid st sev md).2.detections =
            db.detections ++ [⟨nextDetectionId db.detections, pid, st, sev,
              metadataJson md⟩] by
            simp [insert_detection, not_not_intro hr, hfk]] at hd
        rcases List.mem_append.mp hd with hmem | hmem
        · exact hinv d hmem
        · rcases List.mem_singleton.mp hmem with rfl
          exact hr
    · refine ⟨fun h => absurd hr h, fun _ => ?_, fun hinv d hd => ?_⟩
      · simp [insert_detection, not_not_intro hr, hfk]
      · rw [show (insert_detection db pid st sev md).2 = db by
            simp [insert_detection, not_not_intro hr, hfk]] at hd
        exact hinv d hd
  · refine ⟨fun _ => ?_, fun h => absurd h hr, fun hinv d hd => ?_⟩
    · unfold insert_detection
      rw [if_pos hr]
    · rw [show (insert_detection db pid st sev md).2 = db by
          unfold insert_detection; rw [if_pos hr]] at hd
      exact hinv d hd

/-- Witness for C2: an out-of-range severity is rejected with the state
unchanged, and an in-range severity passes the range check. -/
theorem insert_detection_severity_range_witness :
    insert_detection dbEmpty "p1" "readability" (3/2) none =
      (.error .valueError, dbEmpty) ∧
    (insert_detection dbOnePair "p1" "readability" 1 none).1 ≠
      .error .valueError :=
  ⟨(insert_detection_severity_range dbEmpty "p1" "readability" (3/2) none).1
      (by norm_num),
   (insert_detection_severity_range dbOnePair "p1" "readability" 1 none).2.1
      ⟨by norm_num, by norm_num⟩⟩

/-- C4: `init_db` is idempotent — running it twice is the same state
transformation as running it once (so the table set is unchanged and the
second run cannot fail, the model being a total function), and under the
primary-key invariant on `schema_version` both one and two runs leave
exactly one row carrying the current version. -/
theorem init_db_idempotent (db : DBState) (h : db.schema_version.Nodup) :
    init_db (init_db db) = init_db db ∧
    (init_db db).schema_version.count CURRENT_SCHEMA_VERSION = 1 ∧
    (init_db (init_db db)).schema_version.count CURRENT_SCHEMA_VERSION = 1 ∧
    (init_db db).tablesCreated = true := by
  by_cases hm : CURRENT_SCHEMA_VERSION ∈ db.schema_version
  · have hone : init_db db = { db with tablesCreated := true } := by
      unfold init_db
      rw [if_pos hm]
    have hcount : (init_db db).schema_version.count CURRENT_SCHEMA_VERSION = 1 := by
      rw [hone]
      exact List.count_eq_one_of_mem h hm
    have htwo : init_db (init_db db) = init_db db := by
      rw [hone]
      unfold init_db
      rw [if_pos hm]
    exact ⟨htwo, hcount, by rw [htwo]; exact hcount, by rw [hone]⟩
  · have hone : init_db db =
        ⟨true, db.response_pairs, db.detections,
          db.schema_version ++ [CURRENT_SCHEMA_VERSION]⟩ := by
      unfold init_db
      rw [if_neg hm]
    have hcount : (init_db db).schema_version.count CURRENT_SCHEMA_VERSION = 1 := by
      rw [hone]
      simp [List.count_append, List.count_eq_zero_of_not_mem hm]
    have htwo : init_db (init_db db) = init_db db := by
      rw [hone]
      unfold init_db
      rw [if_pos (by simp)]
    exact ⟨htwo, hcount, by rw [htwo]; exact hcount, by rw [hone]⟩

/-- Witness for C4 starting from the completely uninitialized state. -/
theorem init_db_idempotent_witness :
    init_db (init_db ⟨false, [], [], []⟩) = init_db ⟨false, [], [], []⟩ ∧
    (init_db ⟨false, [], [], []⟩).schema_version.count CURRENT_SCHEMA_VERSION = 1 :=
  ⟨(init_db_idempotent ⟨false, [], [], []⟩ (by simp)).1,
   (init_db_idempotent ⟨false, [], [], []⟩ (by simp)).2.1⟩

/-- C10: inserting with an empty metadata dict is indistinguishable from
omitting metadata — the serialization guard treats both as falsy, so the
persisted metadata field is `NULL`; a non-empty dict is serialized to JSON
and stored. -/
theorem insert_detection_empty_metadata (db : DBState) (pid st : String)
    (sev : ℚ) :
    insert_detection db pid st sev (some []) =
      insert_detection db pid st sev none ∧
    (0 ≤ sev ∧ sev ≤ 1 →
      db.response_pairs.any (fun rp => rp.pair_id == pid) = true →
      (insert_detection db pid st sev (some [])).2.detections =
        db.detections ++
          [⟨nextDetectionId db.detections, pid, st, sev, none⟩]) ∧
    (∀ kvs : List (String × String), kvs ≠ [] →
      metadataJson (some kvs) = some (jsonDumps kvs)) := by
  refine ⟨rfl, fun hr hfk => ?_, fun kvs hne => ?_⟩
  · simp [insert_detection, not_not_intro hr, hfk, metadataJson]
  · simp [metadataJson, hne]

/-- Witness for C10: inserting against an existing pair with the empty dict
stores a row whose metadata field is absent, and a one-entry dict is
serialized. -/
theorem insert_detection_empty_metadata_witness :
    (insert_detection dbOnePair "p1" "repetition" 1 (some [])).2.detections =
      dbOnePair.detections ++
        [⟨nextDetectionId dbOnePair.detections, "p1", "repetition", 1, none⟩] ∧
    metadataJson (some [("word", "very")]) =
      some (jsonDumps [("word", "very")]) :=
  ⟨(insert_detection_empty_metadata dbOnePair "p1" "repetition" 1).2.1
      ⟨by norm_num, by norm_num⟩ (by simp [dbOnePair]),
   (insert_detection_empty_metadata dbOnePair "p1" "repetition" 1).2.2
      [("word", "very")] (by simp)⟩

/-! ## Length-ratio detector (src/src/signals/length_ratio.py) -/

/-- A finding emitted by `LengthRatioSignal.analyze`: row id, the ratio
(`None` when a response is empty) and the `flagged` marker. -/
structure LenFinding where
  row_id : String
  ratio : Option ℚ
  flagged : Bool
deriving DecidableEq, Repr

/-- `LengthRatioSignal` carries its construction-time threshold
(default 3.0). -/
structure LengthRatioSignal where
  maxRatio : ℚ
deriving DecidableEq, Repr

/-- The per-row body of `LengthRatioSignal.analyze`: an empty response
flags the row with ratio `None`; otherwise the row is flagged exactly when
`ratio > max_ratio` or `ratio < 1/max_ratio`, and an unflagged row appends
nothing. -/
def LengthRatioSignal.analyzeRow (sig : LengthRatioSignal)
    (row : PreferenceRow) : List LenFinding :=
  if row.chosen.length = 0 ∨ row.rejected.length = 0 then
    [⟨row.row_id, none, true⟩]
  else
    let ratio : ℚ := (row.chosen.length : ℚ) / (row.rejected.length : ℚ)
    if sig.maxRatio < ratio ∨ ratio < 1 / sig.maxRatio then
      [⟨row.row_id, some ratio, true⟩]
    else
      []

/-- `LengthRatioSignal.analyze`: the loop over `rows`, each iteration
appending the findings of `analyzeRow`. -/
def LengthRatioSignal.analyze (sig : LengthRatioSignal)
    (rows : List PreferenceRow) : List LenFinding :=
  rows.flatMap sig.analyzeRow

/-- C7: the length-ratio detector processes rows independently; a row with
an empty response is always flagged with ratio `None` whatever the
threshold; a row with two non-empty responses yields exactly one finding
when the ratio escapes `[1/max_ratio, max_ratio]` and no finding otherwise;
and equal-length (hence non-empty) responses are never flagged at the
default threshold 3.0. -/
theorem lengthRatio_characterization (sig : LengthRatioSignal)
    (rows : List PreferenceRow) (row : PreferenceRow) :
    (sig.analyze rows = rows.flatMap sig.analyzeRow) ∧
    (row.chosen.length = 0 ∨ row.rejected.length = 0 →
      sig.analyzeRow row = [⟨row.row_id, none, true⟩]) ∧
    (row.chosen.length ≠ 0 → row.rejected.length ≠ 0 →
      (sig.maxRatio < (row.chosen.length : ℚ) / (row.rejected.length : ℚ) ∨
          (row.chosen.length : ℚ) / (row.rejected.length : ℚ) < 1 / sig.maxRatio →
        sig.analyzeRow row =
          [⟨row.row_id,
            some ((row.chosen.length : ℚ) / (row.rejected.length : ℚ)), true⟩]) ∧
      (¬ (sig.maxRatio < (row.chosen.length : ℚ) / (row.rejected.length : ℚ) ∨
          (row.chosen.length : ℚ) / (row.rejected.length : ℚ) < 1 / sig.maxRatio) →
        sig.analyzeRow row = [])) ∧
    (sig.maxRatio = 3 → row.chosen.length = row.rejected.length →
      row.chosen.length ≠ 0 → sig.analyzeRow row = []) := by
  refine ⟨rfl, fun hz => ?_, fun hc hr => ⟨fun hout => ?_, fun hin => ?_⟩,
    fun hdef heq hne => ?_⟩
  · unfold LengthRatioSignal.analyzeRow
    rw [if_pos hz]
  · unfold LengthRatioSignal.analyzeRow
    rw [if_neg (by push_neg; exact ⟨hc, hr⟩), if_pos hout]
  · unfold LengthRatioSignal.analyzeRow
    rw [if_neg (by push_neg; exact ⟨hc, hr⟩), if_neg hin]
  · unfold LengthRatioSignal.analyzeRow
    rw [if_neg (by push_neg; exact ⟨hne, heq ▸ hne⟩)]
    have hq : ((row.chosen.length : ℚ)) / ((row.rejected.length : ℚ)) = 1 := by
      rw [heq]
      exact div_self (by exact_mod_cast heq ▸ hne)
    rw [if_neg]
    rw [hq, hdef]
    push_neg
    norm_num

/-- Witness for C7: the spec's own examples — lengths 30 and 5 at threshold
3.0 give ratio 6 and a flag, an empty rejected response flags with ratio
`None` even at threshold 1000000, and equal non-empty lengths never flag. -/
theorem lengthRatio_characterization_witness :
    LengthRatioSignal.analyzeRow ⟨3⟩
      ⟨"p", "aaaaaaaaaaaaaaaaaaaaaaaaaaaaaa", "bbbbb", "r30"⟩ =
      [⟨"r30", some 6, true⟩] ∧
    LengthRatioSignal.analyzeRow ⟨1000000⟩ ⟨"p", "aa", "", "rz"⟩ =
      [⟨"rz", none, true⟩] ∧
    LengthRatioSignal.analyzeRow ⟨3⟩ ⟨"p", "abc", "xyz", "req"⟩ = [] := by
  refine ⟨?_, ?_, ?_⟩
  · have h30 : (⟨"p", "aaaaaaaaaaaaaaaaaaaaaaaaaaaaaa", "bbbbb", "r30"⟩ :
        PreferenceRow).chosen.length = 30 := rfl
    have h5 : (⟨"p", "aaaaaaaaaaaaaaaaaaaaaaaaaaaaaa", "bbbbb", "r30"⟩ :
        PreferenceRow).rejected.length = 5 := rfl
    have h := ((lengthRatio_characterization ⟨3⟩ []
        ⟨"p", "aaaaaaaaaaaaaaaaaaaaaaaaaaaaaa", "bbbbb", "r30"⟩).2.2.1
        (by rw [h30]; norm_num) (by rw [h5]; norm_num)).1
        (by rw [h30, h5]; norm_num)
    rw [h30, h5] at h
    rw [h]
    simp only [List.cons.injEq, LenFinding.mk.injEq, Option.some.injEq]
    norm_num
  · exact (lengthRatio_characterization ⟨1000000⟩ [] ⟨"p", "aa", "", "rz"⟩).2.1
      (by decide)
  · exact (lengthRatio_characterization ⟨3⟩ [] ⟨"p", "abc", "xyz", "req"⟩).2.2.2
      rfl rfl (by decide)

/-! ## Refusal-bias detector (src/src/signals/refusal_bias.py) -/

/-- Python's `str.lower()` (ASCII case folding suffices for the fixed
lexicons and the claims). -/
def pyLower (s : String) : String := String.mk (s.data.map Char.toLower)

/-- Membership of `needle` as a contiguous substring of `hay`: the semantics
of Python's `phrase in text` on strings. -/
def listContainsSub (hay needle : List Char) : Bool :=
  match hay with
  | [] => needle.isEmpty
  | c :: t => needle.isPrefixOf (c :: t) || listContainsSub t needle

/-- `phrase in text` for Lean strings. -/
def strContains (text phrase : String) : Bool :=
  listContainsSub text.data phrase.data

/-- `REFUSAL_PHRASES` from src/src/signals/refusal_bias.py, verbatim. -/
def REFUSAL_PHRASES : List String :=
  ["i can\x27t help",
   "i cannot help",
   "i\x27m not able to",
   "i am not able to",
   "i won\x27t be able to",
   "i\x27m unable to",
   "i cannot provide",
   "i will not provide",
   "i will not help",
   "i must decline",
   "i cannot assist",
   "i will not assist"]

/-- `RefusalBiasSignal._is_refusal`: empty text is never a refusal; other
text is a refusal when it contains some lexicon phrase as a case-insensitive
substring. -/
def is_refusal (text : String) : Bool :=
  if text = "" then false
  else REFUSAL_PHRASES.any (fun phrase => strContains (pyLower text) phrase)

/-- A finding emitted by `RefusalBiasSignal.analyze`. -/
structure RefusalFinding where
  row_id : String
  signal : String
  reason : String
  flagged : Bool
deriving DecidableEq, Repr

/-- `RefusalBiasSignal.analyze`: appends one finding per row whose `chosen`
is a refusal while `rejected` is not. -/
def refusalAnalyze (rows : List PreferenceRow) : List RefusalFinding :=
  rows.flatMap (fun row =>
    if is_refusal row.chosen && !is_refusal row.rejected then
      [⟨row.row_id, "refusal_bias",
        "Model preferred a refusal over a valid response", true⟩]
    else [])

/-- The claim's refusal test, stated without the source's explicit
empty-string guard: the text contains some lexicon phrase as a
case-insensitive substring. -/
def hasRefusalPhrase (text : String) : Bool :=
  REFUSAL_PHRASES.any (fun phrase => strContains (pyLower text) phrase)

/-- The source's empty-string guard is redundant: no lexicon phrase occurs
in the empty string, so both refusal tests agree on every input. -/
theorem is_refusal_eq_hasRefusalPhrase (t : String) :
    is_refusal t = hasRefusalPhrase t := by
  unfold is_refusal
  by_cases h : t = ""
  · subst h
    rw [if_pos rfl]
    decide
  · rw [if_neg h]
    rfl

/-- C8: the refusal-bias detector flags exactly the rows whose `chosen`
contains a lexicon phrase (case-insensitively) while `rejected` contains
none; empty text never counts as a refusal; and a row whose `rejected` is a
refusal, or whose `chosen` is not, produces no finding. -/
theorem refusalBias_characterization (rows : List PreferenceRow)
    (row : PreferenceRow) :
    (refusalAnalyze rows = rows.flatMap (fun r =>
      if hasRefusalPhrase r.chosen && !hasRefusalPhrase r.rejected then
        [⟨r.row_id, "refusal_bias",
          "Model preferred a refusal over a valid response", true⟩]
      else [])) ∧
    is_refusal "" = false ∧
    (hasRefusalPhrase row.rejected = true → refusalAnalyze [row] = []) ∧
    (hasRefusalPhrase row.chosen = false → refusalAnalyze [row] = []) := by
  refine ⟨?_, by decide, fun h => ?_, fun h => ?_⟩
  · unfold refusalAnalyze
    congr 1
    funext r
    rw [is_refusal_eq_hasRefusalPhrase, is_refusal_eq_hasRefusalPhrase]
  · simp [refusalAnalyze, is_refusal_eq_hasRefusalPhrase, h]
  · simp [refusalAnalyze, is_refusal_eq_hasRefusalPhrase, h]

/-- Witness for C8 at the spec's examples: a row preferring the substantive
answer over a refusal is not flagged, and a row with no refusal phrase on
either side is not flagged. -/
theorem refusalBias_characterization_witness :
    refusalAnalyze
      [⟨"p", "Here is how...", "I cannot help with that.", "rs"⟩] = [] ∧
    refusalAnalyze [⟨"p", "ok then", "fine", "rn"⟩] = [] :=
  ⟨(refusalBias_characterization []
      ⟨"p", "Here is how...", "I cannot help with that.", "rs"⟩).2.2.1
      (by decide),
   (refusalBias_characterization [] ⟨"p", "ok then", "fine", "rn"⟩).2.2.2
      (by decide)⟩

/-! ## Repetition detector (src/src/signals/repetition.py)

The detector stores `min_repeats` but matches the fixed regular expression
`\b(\w+)(\s+\1){2,}\b` against `text.lower()`.  A match of that pattern
forces the captured token to be a full word (the character after the capture
must be whitespace) and every back-reference occurrence to be a full word
(each is followed by whitespace or the final word boundary), and the greedy
repetition makes each match consume a maximal run; hence `re.findall`
returns exactly one tuple per maximal run of at least three equal word
tokens separated by pure whitespace, with the repeated word as first group.
The model below computes those runs directly. -/

/-- Word characters of the regex `\w` (ASCII range). -/
def isWordChar (c : Char) : Bool := c.isAlphanum || c == '_'

/-- Scanner state: inside a gap between words (tracking whether a previous
word exists and whether every gap character so far is whitespace), or inside
a word (accumulating its characters reversed, with the flag telling whether
the word is joined to the previous word by pure whitespace). -/
inductive TokState where
  | gap (hasPrev : Bool) (pure : Bool)
  | word (acc : List Char) (linked : Bool)

/-- One left-to-right pass splitting the character list into maximal word
tokens, each tagged with whether it is separated from the previous word by
nonempty pure whitespace (the `\s+` of the pattern). -/
def tokenizeAux : List Char → TokState → List (Bool × List Char)
  | [], .gap _ _ => []
  | [], .word acc linked => [(linked, acc.reverse)]
  | c :: rest, .gap hasPrev pure =>
      if isWordChar c then tokenizeAux rest (.word [c] (hasPrev && pure))
      else tokenizeAux rest (.gap hasPrev (pure && c.isWhitespace))
  | c :: rest, .word acc linked =>
      if isWordChar c then tokenizeAux rest (.word (c :: acc) linked)
      else (linked, acc.reverse) :: tokenizeAux rest (.gap true c.isWhitespace)

/-- Word tokens of a character list with whitespace-link tags. -/
def tokenize (cs : List Char) : List (Bool × List Char) :=
  tokenizeAux cs (.gap false true)

/-- Group the token list into maximal runs of equal, whitespace-linked
words, returning each run's word and length. -/
def runsAux : List (Bool × List Char) → List Char → Nat → List (List Char × Nat)
  | [], w, k => [(w, k)]
  | (linked, w') :: rest, w, k =>
      if linked && w' == w then runsAux rest w (k + 1)
      else (w, k) :: runsAux rest w' 1

/-- The maximal whitespace-linked runs of equal words of a character list. -/
def wordRuns (cs : List Char) : List (List Char × Nat) :=
  match tokenize cs with
  | [] => []
  | (_, w) :: rest => runsAux rest w 1

/-- `re.findall(pattern, text.lower())` projected to the first capture
group, as computed by `RepetitionSignal.analyze`: the word of every maximal
run of length at least three, in order of occurrence. -/
def repetitionMatches (text : String) : List String :=
  ((wordRuns (pyLower text).data).filter (fun r => 3 ≤ r.2)).map
    (fun r => String.mk r.1)

/-- `RepetitionSignal.__init__` stores `min_repeats` (default 3); the
compiled pattern is the fixed regex above and does not mention it. -/
structure RepetitionSignal where
  min_repeats : Nat
deriving DecidableEq, Repr

/-- A finding emitted by `RepetitionSignal.analyze`. -/
structure RepFinding where
  row_id : String
  field : String
  matched_pattern : List String
  flagged : Bool
deriving DecidableEq, Repr

/-- `RepetitionSignal.analyze`: for each row and each of the two fields,
skip empty text, run the regex on the lowered text, and append one finding
carrying the matched words when any match occurred. -/
def RepetitionSignal.analyze (sig : RepetitionSignal)
    (rows : List PreferenceRow) : List RepFinding :=
  rows.flatMap (fun row =>
    [("chosen", row.chosen), ("rejected", row.rejected)].flatMap (fun ft =>
      if ft.2 = "" then []
      else if (repetitionMatches ft.2).isEmpty then []
      else [⟨row.row_id, ft.1, repetitionMatches ft.2, true⟩]))

/-- The claim's repetition test, following the spec's words: the text
contains a single word token repeated at least `n` times consecutively
(case-insensitive, word-boundary delimited, consecutive meaning separated
only by whitespace). -/
def containsRepeatedToken (n : Nat) (text : String) : Bool :=
  (wordRuns (pyLower text).data).any (fun r => n ≤ r.2)

/-- The repeated word(s) a finding should record per the claim: one per
maximal run of at least `n` equal consecutive tokens. -/
def repeatedTokens (n : Nat) (text : String) : List String :=
  (wordRuns (pyLower text).data).filterMap
    (fun r => if n ≤ r.2 then some (String.mk r.1) else none)

theorem repetition_filter_map (n : Nat) (l : List (List Char × Nat)) :
    (l.filter (fun r => 3 ≤ r.2)).map (fun r => String.mk r.1) =
      l.filterMap (fun r => if n ≤ r.2 then some (String.mk r.1) else none)
      ∨ n ≠ 3 := by
  by_cases hn : n = 3
  · subst hn
    left
    induction l with
    | nil => rfl
    | cons hd tl ih =>
        by_cases h : 3 ≤ hd.2
        · simp [List.filter_cons, List.filterMap_cons, h, ih]
        · simp [List.filter_cons, List.filterMap_cons, h, ih]
  · exact Or.inr hn

theorem repetition_isEmpty_any (l : List (List Char × Nat)) :
    ((l.filter (fun r => 3 ≤ r.2)).map (fun r => String.mk r.1)).isEmpty =
      !(l.any (fun r => 3 ≤ r.2)) := by
  induction l with
  | nil => rfl
  | cons hd tl ih =>
      by_cases h : 3 ≤ hd.2
      · simp [List.filter_cons, h]
      · simp [List.filter_cons, h, ih]

theorem repetition_field_eq (rid f text : String) :
    (if text = "" then []
     else if (repetitionMatches text).isEmpty then []
     else [(⟨rid, f, repetitionMatches text, true⟩ : RepFinding)]) =
    (if containsRepeatedToken 3 text then
       [(⟨rid, f, repeatedTokens 3 text, true⟩ : RepFinding)]
     else []) := by
  have h1 : repetitionMatches text = repeatedTokens 3 text := by
    rcases repetition_filter_map 3 (wordRuns (pyLower text).data) with h | h
    · exact h
    · exact absurd rfl h
  have h2 : (repetitionMatches text).isEmpty = !containsRepeatedToken 3 text :=
    repetition_isEmpty_any (wordRuns (pyLower text).data)
  by_cases he : text = ""
  · rw [if_pos he, he]
    rfl
  · rw [if_neg he, h2, h1]
    cases hcb : containsRepeatedToken 3 text <;> simp

/-- Counterexample to C5 as stated: with `min_repeats = 2` the detector
emits no finding for a row whose `chosen` text repeats the token `hi` twice
consecutively, although the claim requires one — the configured minimum is
ignored by the fixed pattern. -/
theorem repetition_min_repeats_ignored :
    RepetitionSignal.analyze ⟨2⟩ [⟨"p", "hi hi", "ok", "r1"⟩] = [] ∧
    containsRepeatedToken 2 "hi hi" = true := by
  constructor
  · decide
  · decide

/-- C5 (amended): for every configured `min_repeats` and every row list the
detector behaves identically, emitting exactly one finding per (row, field)
whose text contains a single word token repeated at least three times
consecutively (case-insensitive, word-boundary delimited), the finding
recording the repeated word of each maximal qualifying run, and no finding
for any other (row, field). -/
theorem repetition_detector_fixed_three (m : Nat) (rows : List PreferenceRow) :
    RepetitionSignal.analyze ⟨m⟩ rows = rows.flatMap (fun row =>
      [("chosen", row.chosen), ("rejected", row.rejected)].flatMap (fun ft =>
        if containsRepeatedToken 3 ft.2 then
          [⟨row.row_id, ft.1, repeatedTokens 3 ft.2, true⟩]
        else [])) := by
  unfold RepetitionSignal.analyze
  congr 1
  funext row
  congr 1
  funext ft
  exact repetition_field_eq row.row_id ft.1 ft.2

/-! ## Semantic-duplicate detector (src/src/signals/semantic_duplicates.py)

The sentence-transformer encoder is an external collaborator and appears as
a function field.  `_cosine_similarity` computes
`np.dot(a, b) / (norm(a) * norm(b))` where `norm(a) * norm(b)` is the square
root of `dot(a,a) * dot(b,b)`; since that square root has no rational form,
the similarity value is represented exactly by the pair
(`dot(a,b)`, `dot(a,a) * dot(b,b)`) — numerator and squared denominator —
and the flag test `sim > threshold` is rendered by the equivalent squared
comparison, valid for the positive thresholds the detector is run with.
For vanishing embeddings the float code computes `nan`, for which
`nan > threshold` is false, matching the rendered test, which also fails. -/

/-- `np.dot` on embedding vectors. -/
def dot (a b : List ℚ) : ℚ := (List.zipWith (· * ·) a b).sum

/-- The cosine similarity of `_cosine_similarity` as an exact pair:
numerator `dot(a,b)` and squared denominator `dot(a,a) * dot(b,b)`. -/
def simPair (a b : List ℚ) : ℚ × ℚ := (dot a b, dot a a * dot b b)

/-- The pairwise flag test `sim > threshold`, in exact arithmetic: the dot
product is positive and its square exceeds `t²` times the squared
denominator. -/
def simExceeds (a b : List ℚ) (t : ℚ) : Bool :=
  decide (0 < dot a b) &&
    decide (t ^ 2 * (dot a a * dot b b) < (dot a b) ^ 2)

/-- A finding emitted by `SemanticDuplicateSignal.analyze`; the reported
`float(sim)` is carried exactly as the pair `simNum`, `simDenSq`. -/
structure DupFinding where
  row_id_1 : String
  row_id_2 : String
  simNum : ℚ
  simDenSq : ℚ
  flagged : Bool
deriving DecidableEq, Repr

/-- `SemanticDuplicateSignal`: construction-time threshold (default 0.95)
and the external encoder. -/
structure SemanticDuplicateSignal where
  threshold : ℚ
  encode : List String → List (List ℚ)

/-- The index pairs visited by the nested loops `for i in range(n)`,
`for j in range(i + 1, n)`. -/
def comparedPairs (n : Nat) : List (Nat × Nat) :=
  (List.range n).flatMap (fun i =>
    (List.range' (i + 1) (n - (i + 1))).map (fun j => (i, j)))

/-- The body of one pairwise-scan iteration at indices `i`, `j`: flag the
pair and record both row ids and the similarity when the test passes. -/
def pairFinding (emb : List (List ℚ)) (rows : List PreferenceRow) (t : ℚ)
    (i j : Nat) : Option DupFinding :=
  if simExceeds (emb.getD i []) (emb.getD j []) t then
    some ⟨(rows.getD i ⟨"", "", "", ""⟩).row_id,
          (rows.getD j ⟨"", "", "", ""⟩).row_id,
          dot (emb.getD i []) (emb.getD j []),
          dot (emb.getD i []) (emb.getD i []) *
            dot (emb.getD j []) (emb.getD j []),
          true⟩
  else none

/-- `SemanticDuplicateSignal.analyze`: encode every row's `chosen` text in
one batch, then scan the upper triangle of the comparison matrix. -/
def SemanticDuplicateSignal.analyze (sig : SemanticDuplicateSignal)
    (rows : List PreferenceRow) : List DupFinding :=
  (comparedPairs (sig.encode (rows.map PreferenceRow.chosen)).length).filterMap
    (fun ij =>
      pairFinding (sig.encode (rows.map PreferenceRow.chosen)) rows
        sig.threshold ij.1 ij.2)

theorem dot_comm (a b : List ℚ) : dot a b = dot b a := by
  unfold dot
  rw [List.zipWith_comm_of_comm]
  exact fun x y => mul_comm x y

theorem dot_self_nonneg (a : List ℚ) : 0 ≤ dot a a := by
  unfold dot
  induction a with
  | nil => simp
  | cons h t ih => simpa using add_nonneg (mul_self_nonneg h) ih

theorem comparedPairs_mem (n i j : Nat) :
    (i, j) ∈ comparedPairs n ↔ i < j ∧ j < n := by
  unfold comparedPairs
  simp only [List.mem_flatMap, List.mem_map, List.mem_range,
    List.mem_range'_1, Prod.mk.injEq]
  constructor
  · rintro ⟨i', hi', j', ⟨hlo, hhi⟩, hij, hjj⟩
    subst hij
    subst hjj
    omega
  · rintro ⟨hij, hjn⟩
    exact ⟨i, by omega, j, ⟨by omega, by omega⟩, rfl, rfl⟩

theorem comparedPairs_nodup (n : Nat) : (comparedPairs n).Nodup := by
  unfold comparedPairs
  rw [List.nodup_flatMap]
  constructor
  · intro i _
    exact (List.nodup_range' _ _).map (fun a b h => congrArg Prod.snd h)
  · have hlt : (List.range n).Pairwise (· < ·) := List.pairwise_lt_range n
    refine hlt.imp ?_
    intro a b hab x hxa hxb
    rcases List.mem_map.mp hxa with ⟨j₁, _, rfl⟩
    rcases List.mem_map.mp hxb with ⟨j₂, _, hx⟩
    exact absurd (congrArg Prod.fst hx).symm (Nat.ne_of_lt hab)

/-- The constant zero encoder, exhibiting the degenerate embedding. -/
def zeroEncoder : List String → List (List ℚ) :=
  fun texts => texts.map (fun _ => [0])

/-- A constant nonzero encoder used as concrete witness input. -/
def oneEncoder : List String → List (List ℚ) :=
  fun texts => texts.map (fun _ => [1])

/-- Counterexample to C6 as stated: two rows with identical zero embeddings
are not flagged at threshold 0.95 — the float code computes a `nan`
similarity whose comparison against the threshold is false (in the exact
rendering the dot product is not positive), so the pair never reaches the
result list even though the embeddings are identical. -/
theorem semanticDuplicate_zero_embedding_not_flagged :
    SemanticDuplicateSignal.analyze ⟨19/20, zeroEncoder⟩
      [⟨"p1", "dup", "r", "a1"⟩, ⟨"p2", "dup", "r", "a2"⟩] = [] ∧
    (zeroEncoder ["dup", "dup"]).getD 0 [] =
      (zeroEncoder ["dup", "dup"]).getD 1 [] := by
  have hdot : dot [0] [0] = (0 : ℚ) := by simp [dot]
  have hs : ∀ t : ℚ, simExceeds [0] [0] t = false := fun t => by
    simp [simExceeds, hdot]
  have hcp : comparedPairs 2 = [(0, 1)] := by decide
  constructor
  · unfold SemanticDuplicateSignal.analyze
    simp [zeroEncoder, hcp, pairFinding, hs]
  · rfl

/-- C6 (amended): cosine similarity is symmetric in its two vectors; the
pairwise scan visits every unordered pair of distinct row indices exactly
once and never pairs an index with itself; and two rows with identical
nonzero embeddings at the default threshold 0.95 always yield a finding
whose recorded similarity is exactly 1 (its numerator is positive and its
square equals the squared denominator). -/
theorem semanticDuplicate_scan (sig : SemanticDuplicateSignal)
    (rows : List PreferenceRow) (a b : List ℚ) (n i j : Nat) :
    simPair a b = simPair b a ∧
    ((i, j) ∈ comparedPairs n ↔ i < j ∧ j < n) ∧
    (comparedPairs n).Nodup ∧
    (i, i) ∉ comparedPairs n ∧
    (sig.threshold = 19/20 → i < j →
      j < (sig.encode (rows.map PreferenceRow.chosen)).length →
      (sig.encode (rows.map PreferenceRow.chosen)).getD i [] = a →
      (sig.encode (rows.map PreferenceRow.chosen)).getD j [] = a →
      dot a a ≠ 0 →
      (⟨(rows.getD i ⟨"", "", "", ""⟩).row_id,
        (rows.getD j ⟨"", "", "", ""⟩).row_id,
        dot a a, dot a a * dot a a, true⟩ : DupFinding) ∈
          SemanticDuplicateSignal.analyze sig rows ∧
      (dot a a) ^ 2 = dot a a * dot a a ∧ 0 < dot a a) := by
  refine ⟨?_, comparedPairs_mem n i j, comparedPairs_nodup n, ?_, ?_⟩
  · unfold simPair
    rw [dot_comm a b, mul_comm (dot a a) (dot b b)]
  · intro h
    have := (comparedPairs_mem n i i).mp h
    omega
  · intro hthr hij hjlen hei hej hne
    have hd : 0 < dot a a := lt_of_le_of_ne (dot_self_nonneg a) (Ne.symm hne)
    have hlt : (19/20 : ℚ) ^ 2 * (dot a a * dot a a) < (dot a a) ^ 2 := by
      nlinarith [mul_pos hd hd]
    have hex : simExceeds a a sig.threshold = true := by
      rw [hthr]
      simp only [simExceeds, Bool.and_eq_true, decide_eq_true_eq]
      exact ⟨hd, hlt⟩
    refine ⟨?_, by ring, hd⟩
    unfold SemanticDuplicateSignal.analyze
    apply List.mem_filterMap.mpr
    refine ⟨(i, j), (comparedPairs_mem _ i j).mpr ⟨hij, hjlen⟩, ?_⟩
    show pairFinding (sig.encode (rows.map PreferenceRow.chosen)) rows
      sig.threshold i j = _
    unfold pairFinding
    rw [hei, hej, if_pos hex]

/-- Witness for the amended C6: two rows with the constant embedding `[1]`
are flagged with similarity exactly 1 at threshold 0.95. -/
theorem semanticDuplicate_scan_witness :
    (⟨"a1", "a2", dot [1] [1], dot [1] [1] * dot [1] [1], true⟩ : DupFinding) ∈
      SemanticDuplicateSignal.analyze ⟨19/20, oneEncoder⟩
        [⟨"p1", "x", "r", "a1"⟩, ⟨"p2", "y", "r", "a2"⟩] ∧
    (0 : ℚ) < dot [1] [1] :=
  have h := (semanticDuplicate_scan ⟨19/20, oneEncoder⟩
    [⟨"p1", "x", "r", "a1"⟩, ⟨"p2", "y", "r", "a2"⟩] [1] [1] 2 0 1).2.2.2.2
    rfl (by norm_num) (by simp [oneEncoder]) rfl rfl (by simp [dot])
  ⟨h.1, h.2.2⟩
